import Mathlib

/-!
Verification of the YouTube Music MCP client wrapper.

The definitions below are a shallow embedding of `src/ytmusic_client.py`,
`src/server.py` and `src/server_remote.py`.  Remote HTTP calls are modelled
as oracle functions passed in as parameters; a Python exception is modelled
as a `PyError` value carrying the exception class name and message, and a
fallible operation returns `Except PyError α`.  Operations that catch all
exceptions internally are total Lean functions.
-/

namespace YTMusicMCP

/-- A Python exception value: the exception class name together with the message it carries. -/
structure PyError where
  ty : String
  msg : String
deriving DecidableEq, Repr

/-- Lowercases a string character by character, embedding Python `str.lower()` on ASCII input. -/
def pyLower (s : String) : String := String.mk (s.toList.map Char.toLower)

/-- Tests whether the first character list is an initial segment of the second. -/
def charsStartsWith : List Char → List Char → Bool
  | [], _ => true
  | _ :: _, [] => false
  | a :: pa, b :: pb => a == b && charsStartsWith pa pb

/-- Tests whether `pat` occurs as a contiguous substring of the second list. -/
def charsHasSub (pat : List Char) : List Char → Bool
  | [] => charsStartsWith pat []
  | b :: hs => charsStartsWith pat (b :: hs) || charsHasSub pat hs

/-- Embeds the Python substring test `pat in hay`. -/
def pyIn (pat hay : String) : Bool := charsHasSub pat.toList hay.toList

/-- Tests whether `p` is a leading substring of `s`. -/
def hasPre (p s : String) : Bool := charsStartsWith p.toList s.toList

/-- Parameters of the remote search call issued by `search_tracks`
(`youtube.search().list`, ytmusic_client.py lines 50-56). -/
structure SearchRequest where
  q : String
  searchType : String
  maxResults : Int
  videoCategoryId : Option String
deriving DecidableEq, Repr

/-- Embeds the request construction in `search_tracks` (ytmusic_client.py lines 36-56):
the filter is mapped through `type_map` with default `"video"`; for the songs filter,
`" music"` is appended to the query when `"music"` does not occur in the lowercased
query; the result count is `min(limit, 50)`; the songs filter pins category 10. -/
def searchRequestOf (query : String) (limit : Int) (filter : String) : SearchRequest :=
  let searchType :=
    if filter == "songs" then "video"
    else if filter == "videos" then "video"
    else if filter == "playlists" then "playlist"
    else "video"
  let searchQuery :=
    if filter == "songs" && !(pyIn "music" (pyLower query)) then query ++ " music"
    else query
  { q := searchQuery
    searchType := searchType
    maxResults := min limit 50
    videoCategoryId := if filter == "songs" then some "10" else none }

/-- A raw item of the remote search response (ytmusic_client.py lines 60-66). -/
structure ApiSearchItem where
  idVideoId : Option String
  idPlaylistId : Option String
  title : String
  channelTitle : String
  channelId : Option String
  description : String
  publishedAt : String
deriving DecidableEq, Repr

/-- An artist entry of a normalized search result. -/
structure Artist where
  name : String
  id : Option String
deriving DecidableEq, Repr

/-- A normalized search result as built by `search_tracks` (ytmusic_client.py lines 68-75). -/
structure SearchResult where
  videoId : Option String
  title : String
  artists : List Artist
  description : String
  publishedAt : String
deriving DecidableEq, Repr

/-- Embeds the normalization of one raw search item (ytmusic_client.py lines 60-75):
the identifier comes from `id.videoId` for video searches and `id.playlistId`
otherwise, the artists list holds the single channel entry, and the description
is truncated to 200 characters. -/
def normalizeSearchItem (searchType : String) (it : ApiSearchItem) : SearchResult :=
  { videoId := if searchType == "video" then it.idVideoId else it.idPlaylistId
    title := it.title
    artists := [{ name := it.channelTitle, id := it.channelId }]
    description := it.description.take 200
    publishedAt := it.publishedAt }

/-- The exception raised by a failing `search_tracks` (ytmusic_client.py line 81). -/
def searchError (e : String) : PyError :=
  { ty := "RuntimeError", msg := "Search failed: " ++ e }

/-- Embeds `search_tracks` (ytmusic_client.py lines 22-81) over a remote transport
oracle: build the request, issue it, normalize the items; a transport error is
re-raised as `RuntimeError("Search failed: ...")`. -/
def searchTracks (remote : SearchRequest → Except String (List ApiSearchItem))
    (query : String) (limit : Int) (filter : String) : Except PyError (List SearchResult) :=
  let req := searchRequestOf query limit filter
  match remote req with
  | Except.error e => Except.error (searchError e)
  | Except.ok items => Except.ok (items.map (normalizeSearchItem req.searchType))

/-- C7: for every input, `search_tracks` passes at most 50 as the per-call result
count to the remote API, and when the filter is songs and the lowercased query
does not contain `"music"`, the issued query is the original with `" music"`
appended. -/
theorem searchRequest_cap_and_music_bias (query : String) (limit : Int) (filter : String) :
    (searchRequestOf query limit filter).maxResults ≤ 50
    ∧ (filter = "songs" → pyIn "music" (pyLower query) = false →
        (searchRequestOf query limit filter).q = query ++ " music") := by
  constructor
  · exact min_le_right _ _
  · intro hf hm
    subst hf
    simp [searchRequestOf, hm]

/-- Witness for C7 at query "hello", limit 20, filter "songs". -/
theorem searchRequest_cap_and_music_bias_holds :
    (searchRequestOf "hello" 20 "songs").maxResults ≤ 50
    ∧ (searchRequestOf "hello" 20 "songs").q = "hello" ++ " music" :=
  ⟨(searchRequest_cap_and_music_bias "hello" 20 "songs").1,
   (searchRequest_cap_and_music_bias "hello" 20 "songs").2 rfl (by decide)⟩

/-- A record of `added_tracks` in `search_and_add_to_playlist`
(ytmusic_client.py lines 348-353). -/
structure AddedTrack where
  query : String
  matched : String
  artistNames : List String
  videoId : String
deriving DecidableEq, Repr

/-- The value returned by `search_and_add_to_playlist` (ytmusic_client.py lines 363-368). -/
structure BatchResult where
  status : String
  addedCount : Nat
  addedTracks : List AddedTrack
  failedQueries : List String
deriving DecidableEq, Repr

/-- Embeds the Python truthiness test on `results[0].get("videoId")`
(ytmusic_client.py line 345): `None` and the empty string are falsy. -/
def truthyId : Option String → Option String
  | none => none
  | some s => if s = "" then none else some s

/-- Embeds one iteration of the loop in `search_and_add_to_playlist`
(ytmusic_client.py lines 342-358): run the songs search for the query; on a
raised error, an empty result list, or a falsy top-result identifier the query
fails (`none`); otherwise the summary record for `added_tracks` is produced.
The `searchFn` parameter stands for the call
`self.search_tracks(query, limit=1, filter="songs")`. -/
def processQuery (searchFn : String → Except PyError (List SearchResult)) (query : String) :
    Option AddedTrack :=
  match searchFn query with
  | Except.error _ => none
  | Except.ok [] => none
  | Except.ok (r :: _) =>
    match truthyId r.videoId with
    | none => none
    | some vid =>
      some { query := query
             matched := r.title
             artistNames := r.artists.map Artist.name
             videoId := vid }

/-- Accumulates `(video_ids, added_tracks, failed_queries)` over the query list in
input order, embedding the loop of ytmusic_client.py lines 338-358. -/
def batchRec (searchFn : String → Except PyError (List SearchResult)) :
    List String → List String × List AddedTrack × List String
  | [] => ([], [], [])
  | q :: qs =>
    let rest := batchRec searchFn qs
    match processQuery searchFn q with
    | some t => (t.videoId :: rest.1, t :: rest.2.1, rest.2.2)
    | none => (rest.1, rest.2.1, q :: rest.2.2)

/-- Embeds `search_and_add_to_playlist` (ytmusic_client.py lines 325-368).  The final
bulk `add_playlist_items` call (line 361) is issued for its side effect only and its
result is discarded by the source, so it does not appear in the returned value;
the function is total, embedding the fact that no exception escapes the loop. -/
def searchAndAddToPlaylist (searchFn : String → Except PyError (List SearchResult))
    (playlistId : String) (searchQueries : List String) : BatchResult :=
  let acc := batchRec searchFn searchQueries
  { status := "completed"
    addedCount := acc.1.length
    addedTracks := acc.2.1
    failedQueries := acc.2.2 }

/-- A resolved query record carries the query it was built from. -/
theorem processQuery_query {f : String → Except PyError (List SearchResult)} {q : String}
    {t : AddedTrack} (h : processQuery f q = some t) : t.query = q := by
  rcases hfq : f q with e | rs
  · simp [processQuery, hfq] at h
  · rcases rs with _ | ⟨r, rest⟩
    · simp [processQuery, hfq] at h
    · rcases hid : truthyId r.videoId with _ | vid
      · simp [processQuery, hfq, hid] at h
      · simp [processQuery, hfq, hid] at h
        rw [← h]

/-- Structural facts about the batch accumulator: the added records are the
queries on which `processQuery` resolves, the failed queries are the rest, both
in input order, and the pending-add id list moves in lockstep with the added
records. -/
theorem batchRec_spec (f : String → Except PyError (List SearchResult)) (qs : List String) :
    ((batchRec f qs).2.1.map AddedTrack.query
        = qs.filter (fun q => (processQuery f q).isSome))
    ∧ ((batchRec f qs).2.2 = qs.filter (fun q => (processQuery f q).isNone))
    ∧ ((batchRec f qs).1.length = (batchRec f qs).2.1.length)
    ∧ ((batchRec f qs).2.1.length + (batchRec f qs).2.2.length = qs.length) := by
  induction qs with
  | nil => simp [batchRec]
  | cons q qs ih =>
    obtain ⟨ih1, ih2, ih3, ih4⟩ := ih
    cases hpq : processQuery f q with
    | none =>
      refine ⟨?_, ?_, ?_, ?_⟩
      · simp [batchRec, hpq, ih1, List.filter_cons]
      · simp [batchRec, hpq, ih2, List.filter_cons]
      · simp [batchRec, hpq, ih3]
      · simp only [batchRec, hpq, List.length_cons]
        omega
    | some t =>
      have hq : t.query = q := processQuery_query hpq
      refine ⟨?_, ?_, ?_, ?_⟩
      · simp [batchRec, hpq, hq, ih1, List.filter_cons]
      · simp [batchRec, hpq, ih2, List.filter_cons]
      · simp [batchRec, hpq, ih3]
      · simp only [batchRec, hpq, List.length_cons]
        omega

/-- C1: `search_and_add_to_playlist` partitions the input queries: the queries of
`addedTracks` are exactly those the per-query search resolves, `failedQueries`
are exactly the others, each list in input order, and the lengths sum to the
input length. -/
theorem searchAndAdd_partitions (f : String → Except PyError (List SearchResult))
    (pid : String) (qs : List String) :
    ((searchAndAddToPlaylist f pid qs).addedTracks.map AddedTrack.query
        = qs.filter (fun q => (processQuery f q).isSome))
    ∧ ((searchAndAddToPlaylist f pid qs).failedQueries
        = qs.filter (fun q => (processQuery f q).isNone))
    ∧ ((searchAndAddToPlaylist f pid qs).addedTracks.length
        + (searchAndAddToPlaylist f pid qs).failedQueries.length = qs.length) := by
  have h := batchRec_spec f qs
  exact ⟨h.1, h.2.1, h.2.2.2⟩

/-- C2: `addedCount` equals the length of `addedTracks` and also the length of the
pending-add list of resolved video identifiers. -/
theorem searchAndAdd_addedCount (f : String → Except PyError (List SearchResult))
    (pid : String) (qs : List String) :
    ((searchAndAddToPlaylist f pid qs).addedCount
        = (searchAndAddToPlaylist f pid qs).addedTracks.length)
    ∧ ((searchAndAddToPlaylist f pid qs).addedCount = (batchRec f qs).1.length) := by
  exact ⟨(batchRec_spec f qs).2.2.1, rfl⟩

/-- C3: when the per-query search raises, that query is appended to
`failedQueries`, the remaining queries are still processed (the rest of the
result is exactly the result for the remaining queries), and the operation
still returns normally with status `"completed"` — totality of
`searchAndAddToPlaylist` embeds that no exception escapes. -/
theorem searchAndAdd_error_continues (f : String → Except PyError (List SearchResult))
    (pid q : String) (e : PyError) (qs : List String)
    (h : f q = Except.error e) :
    ((searchAndAddToPlaylist f pid (q :: qs)).failedQueries
        = q :: (searchAndAddToPlaylist f pid qs).failedQueries)
    ∧ ((searchAndAddToPlaylist f pid (q :: qs)).addedTracks
        = (searchAndAddToPlaylist f pid qs).addedTracks)
    ∧ ((searchAndAddToPlaylist f pid (q :: qs)).addedCount
        = (searchAndAddToPlaylist f pid qs).addedCount)
    ∧ ((searchAndAddToPlaylist f pid (q :: qs)).status = "completed") := by
  have hpq : processQuery f q = none := by simp [processQuery, h]
  refine ⟨?_, ?_, ?_, rfl⟩ <;> simp [searchAndAddToPlaylist, batchRec, hpq]

/-- Witness for C3: a search function that always raises sends the query
"bad query" to `failedQueries` and processing of ["other"] continues. -/
theorem searchAndAdd_error_continues_holds :
    ((searchAndAddToPlaylist
        (fun _ => Except.error { ty := "RuntimeError", msg := "Search failed: boom" })
        "PL1" ("bad query" :: ["other"])).failedQueries
      = "bad query" :: (searchAndAddToPlaylist
        (fun _ => Except.error { ty := "RuntimeError", msg := "Search failed: boom" })
        "PL1" ["other"]).failedQueries)
    ∧ ((searchAndAddToPlaylist
        (fun _ => Except.error { ty := "RuntimeError", msg := "Search failed: boom" })
        "PL1" ("bad query" :: ["other"])).addedTracks
      = (searchAndAddToPlaylist
        (fun _ => Except.error { ty := "RuntimeError", msg := "Search failed: boom" })
        "PL1" ["other"]).addedTracks)
    ∧ ((searchAndAddToPlaylist
        (fun _ => Except.error { ty := "RuntimeError", msg := "Search failed: boom" })
        "PL1" ("bad query" :: ["other"])).addedCount
      = (searchAndAddToPlaylist
        (fun _ => Except.error { ty := "RuntimeError", msg := "Search failed: boom" })
        "PL1" ["other"]).addedCount)
    ∧ ((searchAndAddToPlaylist
        (fun _ => Except.error { ty := "RuntimeError", msg := "Search failed: boom" })
        "PL1" ("bad query" :: ["other"])).status = "completed") :=
  searchAndAdd_error_continues
    (fun _ => Except.error { ty := "RuntimeError", msg := "Search failed: boom" })
    "PL1" "bad query" { ty := "RuntimeError", msg := "Search failed: boom" } ["other"] rfl

/-- The value returned by `add_playlist_items` (ytmusic_client.py lines 173-178). -/
structure AddResult where
  status : String
  playlistId : String
  addedCount : Nat
  requestedCount : Nat
deriving DecidableEq, Repr

/-- Embeds the per-id loop of `add_playlist_items` (ytmusic_client.py lines 165-171):
each id is attempted in order; a failing call is caught and merely skips the counter
increment.  The oracle `ok` tells whether the remote insert call for an id succeeds.
Returns the list of attempted ids together with the success count. -/
def addItemsLoop (ok : String → Bool) : List String → List String × Nat
  | [] => ([], 0)
  | v :: vs =>
    let rest := addItemsLoop ok vs
    (v :: rest.1, (if ok v then 1 else 0) + rest.2)

/-- Embeds `add_playlist_items` (ytmusic_client.py lines 151-182). -/
def addPlaylistItems (ok : String → Bool) (playlistId : String) (videoIds : List String) :
    AddResult :=
  { status := "success"
    playlistId := playlistId
    addedCount := (addItemsLoop ok videoIds).2
    requestedCount := videoIds.length }

/-- Every id is attempted in input order and the counter counts the successes. -/
theorem addItemsLoop_spec (ok : String → Bool) (vs : List String) :
    (addItemsLoop ok vs).1 = vs
    ∧ (addItemsLoop ok vs).2 = (vs.filter ok).length := by
  induction vs with
  | nil => exact ⟨rfl, rfl⟩
  | cons v vs ih =>
    obtain ⟨ih1, ih2⟩ := ih
    by_cases h : ok v
    · refine ⟨by simp [addItemsLoop, ih1], ?_⟩
      simp [addItemsLoop, h, ih2, List.filter_cons]
      omega
    · refine ⟨by simp [addItemsLoop, ih1], ?_⟩
      simp [addItemsLoop, h, ih2, List.filter_cons]

/-- C8: `add_playlist_items` attempts one insert per id, in order, never aborts on a
per-item failure, and always returns `requestedCount = len(videoIds)` together with
`addedCount` counting the successful inserts, so `addedCount ≤ requestedCount`;
totality of the function embeds that per-item failures are not raised to the caller. -/
theorem addPlaylistItems_reports_counts (ok : String → Bool) (pid : String)
    (ids : List String) :
    ((addPlaylistItems ok pid ids).requestedCount = ids.length)
    ∧ ((addItemsLoop ok ids).1 = ids)
    ∧ ((addPlaylistItems ok pid ids).addedCount = (ids.filter ok).length)
    ∧ ((addPlaylistItems ok pid ids).addedCount ≤ (addPlaylistItems ok pid ids).requestedCount)
    ∧ ((addPlaylistItems ok pid ids).status = "success") := by
  have h := addItemsLoop_spec ok ids
  refine ⟨rfl, h.1, h.2, ?_, rfl⟩
  show (addItemsLoop ok ids).2 ≤ ids.length
  rw [h.2]
  exact List.length_filter_le _ _

/-- A raw item of the remote playlist-items response (ytmusic_client.py lines 216-218). -/
structure ApiPlaylistItem where
  title : String
  videoId : Option String
  ownerChannelTitle : String
  position : Nat
deriving DecidableEq, Repr

/-- A normalized playlist track as appended by `get_playlist` (ytmusic_client.py lines 219-224). -/
structure PlTrack where
  title : String
  videoId : Option String
  artistNames : List String
  position : Nat
deriving DecidableEq, Repr

/-- Embeds the normalization of one playlist item (ytmusic_client.py lines 219-224). -/
def normalizePlItem (it : ApiPlaylistItem) : PlTrack :=
  { title := it.title
    videoId := it.videoId
    artistNames := [it.ownerChannelTitle]
    position := it.position }

/-- One response of the remote `playlistItems().list` call: its items, and whether a
`nextPageToken` is present. -/
structure Page where
  items : List ApiPlaylistItem
  hasNext : Bool
deriving DecidableEq, Repr

/-- Embeds the Python truthiness of `limit and len(tracks) >= limit`
(ytmusic_client.py lines 227 and 231): a `None` or zero limit is falsy. -/
def capReached : Option Nat → Nat → Bool
  | none, _ => false
  | some l, n => !(l == 0) && decide (l ≤ n)

/-- Embeds the inner for loop of `get_playlist` (ytmusic_client.py lines 216-228):
append each normalized item, breaking as soon as the cap is reached. -/
def appendTracks (limit : Option Nat) : List ApiPlaylistItem → List PlTrack → List PlTrack
  | [], tracks => tracks
  | it :: its, tracks =>
    let tracks2 := tracks ++ [normalizePlItem it]
    if capReached limit tracks2.length then tracks2
    else appendTracks limit its tracks2

/-- Embeds the outer while loop of `get_playlist` (ytmusic_client.py lines 207-232)
over the sequence of responses the remote API would return to successive page
requests: process the page's items, then stop when no continuation token is present
or the cap is reached, else request the next page. -/
def fetchLoop (limit : Option Nat) : List Page → List PlTrack → List PlTrack
  | [], tracks => tracks
  | p :: ps, tracks =>
    let tracks2 := appendTracks limit p.items tracks
    if !p.hasNext || capReached limit tracks2.length then tracks2
    else fetchLoop limit ps tracks2

/-- The paginated track accumulation of `get_playlist`, started from the empty
accumulator of line 204. -/
def getPlaylistTracks (limit : Option Nat) (pages : List Page) : List PlTrack :=
  fetchLoop limit pages []

/-- With no cap the inner loop appends the whole page. -/
theorem appendTracks_none (its : List ApiPlaylistItem) :
    ∀ tracks, appendTracks none its tracks = tracks ++ its.map normalizePlItem := by
  induction its with
  | nil => intro tracks; simp [appendTracks]
  | cons it its ih =>
    intro tracks
    simp [appendTracks, capReached, ih]

/-- With a positive cap not yet reached, the inner loop grows the accumulator to
exactly `min l (tracks.length + its.length)`. -/
theorem appendTracks_some_length (l : Nat) (hl : 0 < l) (its : List ApiPlaylistItem) :
    ∀ tracks : List PlTrack, tracks.length < l →
      (appendTracks (some l) its tracks).length = min l (tracks.length + its.length) := by
  induction its with
  | nil =>
    intro tracks h
    simp [appendTracks]
    omega
  | cons it its ih =>
    intro tracks h
    by_cases hc : l ≤ tracks.length + 1
    · have hcap : capReached (some l) (tracks ++ [normalizePlItem it]).length = true := by
        simp [capReached, List.length_append]
        omega
      simp only [appendTracks, hcap, if_true]
      simp [List.length_append]
      omega
    · have hcap : capReached (some l) (tracks ++ [normalizePlItem it]).length = false := by
        simp [capReached, List.length_append]
        omega
      have hlt : (tracks ++ [normalizePlItem it]).length < l := by
        simp [List.length_append]
        omega
      simp only [appendTracks, hcap, Bool.false_eq_true, if_false]
      rw [ih _ hlt]
      simp [List.length_append]
      omega

/-- Running the capped loop on `ps ++ qs` never touches `qs` when the pages of `ps`
already contain at least as many items as the cap requires, the accumulator stops at
exactly the cap, and every page of `ps` may even advertise a continuation token. -/
theorem fetchLoop_capped (l : Nat) (hl : 0 < l) (ps : List Page) :
    ∀ (qs : List Page) (tracks : List PlTrack),
      (∀ p ∈ ps, p.hasNext = true) →
      tracks.length < l →
      l ≤ tracks.length + (ps.map (fun p => p.items.length)).sum →
      fetchLoop (some l) (ps ++ qs) tracks = fetchLoop (some l) ps tracks
      ∧ (fetchLoop (some l) ps tracks).length = l := by
  induction ps with
  | nil =>
    intro qs tracks _ hlt hsum
    simp at hsum
    omega
  | cons p ps ih =>
    intro qs tracks hnext hlt hsum
    have hp : p.hasNext = true := hnext p (by simp)
    have hlen : (appendTracks (some l) p.items tracks).length
        = min l (tracks.length + p.items.length) :=
      appendTracks_some_length l hl p.items tracks hlt
    simp only [List.map_cons, List.sum_cons] at hsum
    by_cases hc : l ≤ tracks.length + p.items.length
    · have hcap : capReached (some l) (appendTracks (some l) p.items tracks).length = true := by
        simp [capReached, hlen]
        omega
      constructor
      · simp only [List.cons_append, fetchLoop, hp, hcap, Bool.not_true, Bool.false_or, if_true]
      · simp only [fetchLoop, hp, hcap, Bool.not_true, Bool.false_or, if_true]
        omega
    · have hlt2 : (appendTracks (some l) p.items tracks).length < l := by omega
      have hcap : capReached (some l) (appendTracks (some l) p.items tracks).length = false := by
        simp [capReached]
        omega
      have hsum2 : l ≤ (appendTracks (some l) p.items tracks).length
          + (ps.map (fun p => p.items.length)).sum := by
        rw [hlen]
        omega
      have hrec := ih qs (appendTracks (some l) p.items tracks)
        (fun r hr => hnext r (List.mem_cons_of_mem _ hr)) hlt2 hsum2
      constructor
      · simp only [List.cons_append, fetchLoop, hp, hcap, Bool.not_true, Bool.false_or,
          Bool.false_eq_true, if_false]
        exact hrec.1
      · simp only [fetchLoop, hp, hcap, Bool.not_true, Bool.false_or,
          Bool.false_eq_true, if_false]
        exact hrec.2

/-- C4: with a positive cap and a playlist whose pages hold at least `l` items, the
accumulated track list stops at exactly the cap and the pages after the one that
reaches the cap are never requested, even though every processed page advertises a
further continuation token. -/
theorem getPlaylist_cap_stops (l : Nat) (ps qs : List Page)
    (hl : 0 < l)
    (hnext : ∀ p ∈ ps, p.hasNext = true)
    (hsum : l ≤ (ps.map (fun p => p.items.length)).sum) :
    getPlaylistTracks (some l) (ps ++ qs) = getPlaylistTracks (some l) ps
    ∧ (getPlaylistTracks (some l) (ps ++ qs)).length = l := by
  have h := fetchLoop_capped l hl ps qs [] hnext (by simpa using hl) (by simpa using hsum)
  exact ⟨h.1, by rw [getPlaylistTracks, h.1]; exact h.2⟩

/-- A one-item page advertising a continuation token, used as a concrete input. -/
def pageT1 : Page :=
  { items := [{ title := "T1", videoId := some "v1", ownerChannelTitle := "Owner", position := 0 }]
    hasNext := true }

/-- A second one-item page advertising a continuation token, used as a concrete input. -/
def pageT2 : Page :=
  { items := [{ title := "T2", videoId := some "v2", ownerChannelTitle := "Owner", position := 1 }]
    hasNext := true }

/-- Witness for C4: with cap 1, a first page of one item that advertises a
continuation token, and a second page, the second page is not consumed and the
result has exactly one track. -/
theorem getPlaylist_cap_stops_holds :
    getPlaylistTracks (some 1) ([pageT1] ++ [pageT2]) = getPlaylistTracks (some 1) [pageT1]
    ∧ (getPlaylistTracks (some 1) ([pageT1] ++ [pageT2])).length = 1 :=
  getPlaylist_cap_stops 1 [pageT1] [pageT2] (by decide) (by decide) (by decide)

/-- With no cap the loop walks every page up to and including the first page
without a continuation token and appends all normalized items in order. -/
theorem fetchLoop_none (ps : List Page) :
    ∀ (plast : Page) (tracks : List PlTrack),
      (∀ p ∈ ps, p.hasNext = true) → plast.hasNext = false →
      fetchLoop none (ps ++ [plast]) tracks
        = tracks ++ ((ps ++ [plast]).map (fun p => p.items.map normalizePlItem)).flatten := by
  induction ps with
  | nil =>
    intro plast tracks _ hlast
    simp [fetchLoop, appendTracks_none, hlast, capReached]
  | cons p ps ih =>
    intro plast tracks hnext hlast
    have hp : p.hasNext = true := hnext p (by simp)
    have hstep : fetchLoop none ((p :: ps) ++ [plast]) tracks
        = fetchLoop none (ps ++ [plast]) (tracks ++ p.items.map normalizePlItem) := by
      simp [fetchLoop, appendTracks_none, hp, capReached]
    rw [hstep, ih plast _ (fun r hr => hnext r (List.mem_cons_of_mem _ hr)) hlast]
    simp [List.append_assoc]

/-- C5: with no cap, `get_playlist` keeps requesting pages until the remote returns
no continuation token, the collected tracks are the concatenation of the per-page
normalized items in response order, and the total equals the sum of the per-page
item counts. -/
theorem getPlaylist_noCap_collects_all (ps : List Page) (plast : Page)
    (hnext : ∀ p ∈ ps, p.hasNext = true) (hlast : plast.hasNext = false) :
    getPlaylistTracks none (ps ++ [plast])
      = ((ps ++ [plast]).map (fun p => p.items.map normalizePlItem)).flatten
    ∧ (getPlaylistTracks none (ps ++ [plast])).length
      = ((ps ++ [plast]).map (fun p => p.items.length)).sum := by
  have h := fetchLoop_none ps plast [] hnext hlast
  have h1 : getPlaylistTracks none (ps ++ [plast])
      = ((ps ++ [plast]).map (fun p => p.items.map normalizePlItem)).flatten := by
    rw [getPlaylistTracks, h]
    simp
  refine ⟨h1, ?_⟩
  rw [h1]
  simp [List.length_flatten, List.map_map, Function.comp_def, List.length_map]

/-- A two-item page advertising a continuation token, used as a concrete input. -/
def pageAB : Page :=
  { items := [{ title := "A", videoId := some "a", ownerChannelTitle := "O", position := 0 },
              { title := "B", videoId := some "b", ownerChannelTitle := "O", position := 1 }]
    hasNext := true }

/-- A final one-item page without a continuation token, used as a concrete input. -/
def pageC : Page :=
  { items := [{ title := "C", videoId := none, ownerChannelTitle := "O", position := 2 }]
    hasNext := false }

/-- Witness for C5: two pages of sizes 2 and 1 are fully collected, giving the three
normalized tracks and the total 3. -/
theorem getPlaylist_noCap_collects_all_holds :
    getPlaylistTracks none ([pageAB] ++ [pageC])
      = (([pageAB] ++ [pageC]).map (fun p => p.items.map normalizePlItem)).flatten
    ∧ (getPlaylistTracks none ([pageAB] ++ [pageC])).length
      = (([pageAB] ++ [pageC]).map (fun p => p.items.length)).sum :=
  getPlaylist_noCap_collects_all [pageAB] pageC (by decide) (by decide)

/-- A text content block returned over the tool channel (mcp.types.TextContent). -/
structure TextContent where
  type : String
  text : String
deriving DecidableEq, Repr

/-- Embeds the try body of `call_tool` (server.py lines 188-290, server_remote.py
lines 189-270): `dispatch` is the outcome of the branch selected for the tool name
— rendered contents on success, the raised exception on failure — and `none`
models the unknown-tool branch of server.py line 290, which raises `ValueError`
inside the try block. -/
def callToolBody (dispatch : Option (Except PyError (List TextContent))) (name : String) :
    Except PyError (List TextContent) :=
  match dispatch with
  | some r => r
  | none => Except.error { ty := "ValueError", msg := "Unknown tool: " ++ name }

/-- Embeds `call_tool` (server.py lines 181-294): the try body runs and any raised
exception is caught and rendered as a single text content whose text is the error
message prefixed with `"Error: "` (line 294). -/
def callTool (dispatch : Option (Except PyError (List TextContent))) (name : String) :
    List TextContent :=
  match callToolBody dispatch name with
  | Except.ok contents => contents
  | Except.error e => [{ type := "text", text := "Error: " ++ e.msg }]

/-- C9: whenever the underlying operation raises, `call_tool` returns a text result
whose content is the error message prefixed with `"Error:"`; an unknown tool name
is also rendered this way; a successful branch is returned as is — and `callTool`
being a total function embeds that no exception propagates through the tool
channel. -/
theorem callTool_never_raises (dispatch : Option (Except PyError (List TextContent)))
    (name : String) :
    (∀ e, dispatch = some (Except.error e) →
        callTool dispatch name = [{ type := "text", text := "Error: " ++ e.msg }])
    ∧ (dispatch = none →
        callTool dispatch name
          = [{ type := "text", text := "Error: " ++ ("Unknown tool: " ++ name) }])
    ∧ (∀ cs, dispatch = some (Except.ok cs) → callTool dispatch name = cs) := by
  refine ⟨?_, ?_, ?_⟩
  · intro e he
    subst he
    rfl
  · intro hn
    subst hn
    rfl
  · intro cs hc
    subst hc
    rfl

/-- Witness for C9: a branch raising `RuntimeError("Search failed: boom")` is
rendered as the text `"Error: Search failed: boom"`. -/
theorem callTool_never_raises_holds :
    callTool (some (Except.error { ty := "RuntimeError", msg := "Search failed: boom" }))
        "search_youtube_music"
      = [{ type := "text", text := "Error: " ++ "Search failed: boom" }] :=
  (callTool_never_raises
      (some (Except.error { ty := "RuntimeError", msg := "Search failed: boom" }))
      "search_youtube_music").1
    { ty := "RuntimeError", msg := "Search failed: boom" } rfl

/-- The exception raised by a failing `delete_playlist` (ytmusic_client.py line 253). -/
def deleteError (e : String) : PyError :=
  { ty := "RuntimeError", msg := "Failed to delete playlist: " ++ e }

/-- The value returned by a successful `delete_playlist` (ytmusic_client.py line 250). -/
structure DeleteResult where
  status : String
  playlistId : String
deriving DecidableEq, Repr

/-- Embeds `delete_playlist` (ytmusic_client.py lines 246-253) over a remote delete
oracle: the remote error is re-raised as `RuntimeError("Failed to delete playlist: ...")`. -/
def deletePlaylist (remoteDelete : String → Except String Unit) (playlistId : String) :
    Except PyError DeleteResult :=
  match remoteDelete playlistId with
  | Except.ok _ => Except.ok { status := "deleted", playlistId := playlistId }
  | Except.error e => Except.error (deleteError e)

/-- The exception raised by a failing `create_playlist` (ytmusic_client.py line 133). -/
def playlistCreateError (e : String) : PyError :=
  { ty := "RuntimeError", msg := "Failed to create playlist: " ++ e }

/-- The exception raised when the orchestration of `add_playlist_items` itself fails
(ytmusic_client.py line 182). -/
def addItemsError (e : String) : PyError :=
  { ty := "RuntimeError", msg := "Failed to add tracks: " ++ e }

/-- The exception raised by a failing `get_playlist`, covering the missing-playlist
raise of line 197 after it is re-wrapped by the handler of line 244. -/
def retrievalError (e : String) : PyError :=
  { ty := "RuntimeError", msg := "Failed to retrieve playlist: " ++ e }

/-- The exception raised by a failing `update_playlist` (ytmusic_client.py line 296). -/
def updateError (e : String) : PyError :=
  { ty := "RuntimeError", msg := "Failed to update playlist: " ++ e }

/-- Extracts the exception class name of a failed operation, `none` on success. -/
def errTyOf {α : Type} : Except PyError α → Option String
  | Except.error e => some e.ty
  | Except.ok _ => none

/-- C6 counterexample: on a failing transport, `search_tracks` and
`delete_playlist` raise exceptions of the same class `RuntimeError`, so the
failure kinds are not distinguishable by error type, contrary to the claimed
per-operation taxonomy. -/
theorem errorTaxonomy_not_distinct_types :
    errTyOf (searchTracks (fun _ => Except.error "API Error") "query" 20 "songs")
      = errTyOf (deletePlaylist (fun _ => Except.error "API Error") "PLX")
    ∧ errTyOf (searchTracks (fun _ => Except.error "API Error") "query" 20 "songs")
      = some "RuntimeError" := by
  constructor <;> rfl

/-- Every character list is an initial segment of itself extended on the right. -/
theorem charsStartsWith_self_append (l : List Char) :
    ∀ m, charsStartsWith l (l ++ m) = true := by
  induction l with
  | nil => intro m; rfl
  | cons a l ih => intro m; simp [charsStartsWith, ih]

/-- Appending to a string keeps the original as a leading substring. -/
theorem hasPre_self_append (p e : String) : hasPre p (p ++ e) = true := by
  cases p with
  | mk pd =>
    cases e with
    | mk ed =>
      show charsStartsWith pd (pd ++ ed) = true
      exact charsStartsWith_self_append pd ed

/-- C6 amended: every failing operation raises the single exception class
`RuntimeError`; the failure kinds are distinguished only by the per-operation
message prefixes, which are pairwise distinct.  The missing-playlist case has no
separate class either: it surfaces under the retrieval or update prefix. -/
theorem errorTaxonomy_runtimeError_with_prefixes (e : String) :
    ((searchError e).ty = "RuntimeError"
      ∧ (playlistCreateError e).ty = "RuntimeError"
      ∧ (addItemsError e).ty = "RuntimeError"
      ∧ (retrievalError e).ty = "RuntimeError"
      ∧ (updateError e).ty = "RuntimeError"
      ∧ (deleteError e).ty = "RuntimeError")
    ∧ (hasPre "Search failed: " (searchError e).msg = true
      ∧ hasPre "Failed to create playlist: " (playlistCreateError e).msg = true
      ∧ hasPre "Failed to add tracks: " (addItemsError e).msg = true
      ∧ hasPre "Failed to retrieve playlist: " (retrievalError e).msg = true
      ∧ hasPre "Failed to update playlist: " (updateError e).msg = true
      ∧ hasPre "Failed to delete playlist: " (deleteError e).msg = true)
    ∧ (["Search failed: ", "Failed to create playlist: ", "Failed to add tracks: ",
        "Failed to retrieve playlist: ", "Failed to update playlist: ",
        "Failed to delete playlist: "] : List String).Nodup := by
  refine ⟨⟨rfl, rfl, rfl, rfl, rfl, rfl⟩, ⟨?_, ?_, ?_, ?_, ?_, ?_⟩, by decide⟩
  all_goals exact hasPre_self_append _ _

/-- The snippet of a playlist as fetched and mutated by `update_playlist`. -/
structure Snippet where
  title : String
  description : String
deriving DecidableEq, Repr

/-- Embeds lines 272-276 of `update_playlist`: overlay the provided fields onto the
fetched snippet; the title uses Python truthiness (`if title:`), so `None` and the
empty string are both skipped, while the description tests only for `None`
(`if description is not None:`). -/
def applyUpdates (title description : Option String) (snip : Snippet) : Snippet :=
  let s1 := match title with
    | some t => if t = "" then snip else { snip with title := t }
    | none => snip
  match description with
  | some d => { s1 with description := d }
  | none => s1

/-- The value returned by a successful `update_playlist` (ytmusic_client.py lines 288-293). -/
structure UpdateResult where
  status : String
  playlistId : String
  title : String
  description : String
deriving DecidableEq, Repr

/-- Embeds `update_playlist` (ytmusic_client.py lines 255-296): fetch the current
snippet (`current` is the oracle for the metadata read; `none` models an empty
items list, whose raise of line 267 is re-wrapped by line 296), overlay the
provided fields, write back through `remoteUpdate`, and report the written title
and description. -/
def updatePlaylist (current : Option Snippet) (remoteUpdate : Snippet → Except String Snippet)
    (playlistId : String) (title description : Option String) : Except PyError UpdateResult :=
  match current with
  | none => Except.error (updateError ("Playlist not found: " ++ playlistId))
  | some snip =>
    let snip2 := applyUpdates title description snip
    match remoteUpdate snip2 with
    | Except.error e => Except.error (updateError e)
    | Except.ok rs =>
      Except.ok { status := "updated", playlistId := playlistId
                  title := rs.title, description := rs.description }

/-- C10: the overlay of `update_playlist` is asymmetric — an empty-string title is
ignored (Python truthiness) while an empty-string description clears the stored
description; a `None` field is always left unchanged; a nonempty title and any
non-`None` description are applied; and with an echoing remote, `update_playlist`
reports exactly the overlaid snippet. -/
theorem updatePlaylist_overlay_asymmetry (snip : Snippet) (t d : Option String) :
    ((applyUpdates (some "") d snip).title = snip.title)
    ∧ ((applyUpdates t (some "") snip).description = "")
    ∧ ((applyUpdates none d snip).title = snip.title)
    ∧ ((applyUpdates t none snip).description = snip.description)
    ∧ (∀ s, s ≠ "" → (applyUpdates (some s) d snip).title = s)
    ∧ (∀ s, (applyUpdates t (some s) snip).description = s)
    ∧ (updatePlaylist (some snip) (fun s => Except.ok s) "PL" t d
        = Except.ok { status := "updated", playlistId := "PL"
                      title := (applyUpdates t d snip).title
                      description := (applyUpdates t d snip).description }) := by
  refine ⟨?_, ?_, ?_, ?_, ?_, ?_, rfl⟩
  · cases d <;> simp [applyUpdates]
  · rcases t with _ | s
    · simp [applyUpdates]
    · by_cases hs : s = "" <;> simp [applyUpdates, hs]
  · cases d <;> simp [applyUpdates]
  · rcases t with _ | s
    · simp [applyUpdates]
    · by_cases hs : s = "" <;> simp [applyUpdates, hs]
  · intro s hs
    cases d <;> simp [applyUpdates, hs]
  · intro s
    rcases t with _ | u
    · simp [applyUpdates]
    · by_cases hu : u = "" <;> simp [applyUpdates, hu]

/-- Witness for C10: with stored snippet (title "Old", description "D"), an empty
title argument leaves the title "Old", an empty description argument clears the
description, and the nonempty title "New" is applied. -/
theorem updatePlaylist_overlay_asymmetry_holds :
    ((applyUpdates (some "") (some "newdesc")
        { title := "Old", description := "D" }).title = "Old")
    ∧ ((applyUpdates (some "New") (some "")
        { title := "Old", description := "D" }).description = "")
    ∧ ((applyUpdates (some "New") (some "")
        { title := "Old", description := "D" }).title = "New") :=
  ⟨(updatePlaylist_overlay_asymmetry { title := "Old", description := "D" }
      (some "") (some "newdesc")).1,
   (updatePlaylist_overlay_asymmetry { title := "Old", description := "D" }
      (some "New") (some "")).2.1,
   (updatePlaylist_overlay_asymmetry { title := "Old", description := "D" }
      (some "New") (some "")).2.2.2.2.1 "New" (by decide)⟩

end YTMusicMCP
